import Mathlib

/-!
Shallow embedding of the driver-recommendation decision engine of
`src/next_locdemo.py` (the `DemandPredictor` and `DecisionEngine` classes)
together with the fatigue function of `src/core/fatigue.py`, which is
textually identical to `DecisionEngine._compute_fatigue`.

Python floats are modelled as exact rationals (`ℚ`); Python dicts used as
finite maps are modelled as association lists with first-match lookup.
`x / 0 = 0` in Lean; every division in the engine has a positive
denominator on the domains the theorems quantify over.
-/

namespace NextLoc

/-- Configuration constant `MOVE_ADVANTANTAGE_THRESHOLD = 1.25`
(spelling as in the source). -/
def MOVE_ADVANTANTAGE_THRESHOLD : ℚ := 5/4

/-- Configuration constant `FATIGUE_HIGH_THRESHOLD = 0.6`. -/
def FATIGUE_HIGH_THRESHOLD : ℚ := 3/5

/-- Configuration constant `FATIGUE_CRITICAL_THRESHOLD = 0.8`. -/
def FATIGUE_CRITICAL_THRESHOLD : ℚ := 4/5

/-- Configuration constant `MAX_HOURS_CONTINUOUS = 5`. -/
def MAX_HOURS_CONTINUOUS : ℚ := 5

/-- `FUEL_TYPE_COSTS_PER_KM.get(fuel_type, 0.30)`: the fuel-cost dict
`{"gas": 0.35, "hybrid": 0.25, "EV": 0.15, "unknown": 0.30}` with default
`0.30` for a key not present. -/
def FUEL_TYPE_COSTS_PER_KM (fuel_type : String) : ℚ :=
  if fuel_type = "gas" then 35/100
  else if fuel_type = "hybrid" then 25/100
  else if fuel_type = "EV" then 15/100
  else if fuel_type = "unknown" then 30/100
  else 30/100

/-- `compute_fatigue` of `src/core/fatigue.py`, identical to
`DecisionEngine._compute_fatigue` of `src/next_locdemo.py`:
`min(1.0, min(1.0, hours_online/5)*0.7 + min(1.0, jobs_completed/50)*0.3)`. -/
def compute_fatigue (hours_online : ℚ) (jobs_completed : ℚ) : ℚ :=
  let hour_fatigue := min 1 (hours_online / MAX_HOURS_CONTINUOUS)
  let job_fatigue := min 1 (jobs_completed / 50)
  min 1 (hour_fatigue * (7/10) + job_fatigue * (3/10))

/-- `DemandPredictor`: holds the `hexagon_id -> predicted_eph` dict built
from the heatmap at construction. -/
structure DemandPredictor where
  eph_predictions : List (String × ℚ)

/-- `DemandPredictor.predict_eph`:
`{loc: self._eph_predictions.get(loc, 10.0) for loc in locations}`. -/
def DemandPredictor.predict_eph (p : DemandPredictor) (locations : List String) :
    List (String × ℚ) :=
  locations.map (fun loc => (loc, (p.eph_predictions.lookup loc).getD 10))

/-- Per-candidate value in the `candidate_locations` dict:
`{"distance_km": ..., "travel_time_mins": ...}`. -/
structure CandidateInfo where
  distance_km : ℚ
  travel_time_mins : ℚ
deriving DecidableEq

/-- The `active_quest` dict: keys `target`, `progress`, `deadline_hours`,
`reward`. -/
structure ActiveQuest where
  target : ℚ
  progress : ℚ
  deadline_hours : ℚ
  reward : ℚ
deriving DecidableEq

/-- One entry appended to `options` in step 2 of `get_recommendation`
(before `final_score` is attached). -/
structure OptionInfo where
  location : String
  distance_km : ℚ
  travel_time_mins : ℚ
  raw_eph : ℚ
  effective_eph : ℚ
deriving DecidableEq

/-- An `options` entry after step 3 has set `option["final_score"]`. -/
structure ScoredOption where
  location : String
  distance_km : ℚ
  travel_time_mins : ℚ
  raw_eph : ℚ
  effective_eph : ℚ
  final_score : ℚ
deriving DecidableEq

/-- `DecisionEngine`: the predictor plus the `avg_fare_by_city` dict built
from the trips data at construction. -/
structure DecisionEngine where
  predictor : DemandPredictor
  avg_fare_by_city : List (ℤ × ℚ)

/-- The per-call arguments of `DecisionEngine.get_recommendation`.
`desired_end_location` is accepted by the Python signature but never read,
so it is omitted. -/
structure EngineInput where
  current_location : String
  city_id : ℤ
  fuel_type : String
  hours_online : ℚ
  jobs_completed : ℚ
  time_remaining_in_shift_mins : ℚ
  candidate_locations : List (String × CandidateInfo)
  active_quest : Option ActiveQuest

/-- `if not candidate_locations: candidate_locations =
{current_location: {"distance_km": 0, "travel_time_mins": 0}}`. -/
def defaultCandidates (inp : EngineInput) : List (String × CandidateInfo) :=
  if inp.candidate_locations = [] then
    [(inp.current_location, ⟨0, 0⟩)]
  else inp.candidate_locations

/-- The body of the step-2 loop for one surviving candidate: fuel cost,
raw EPH lookup (default 10.0), time-efficiency multiplier, hourly travel
cost, effective EPH. -/
def buildOption (predicted_eph : List (String × ℚ)) (fuel_type : String)
    (p : String × CandidateInfo) : OptionInfo :=
  let travel_time_mins := p.2.travel_time_mins
  let dist_km := p.2.distance_km
  let vehicle_cost_per_km := FUEL_TYPE_COSTS_PER_KM fuel_type
  let raw_eph := (predicted_eph.lookup p.1).getD 10
  let time_efficiency_multiplier := 60 / (60 + travel_time_mins)
  let travel_cost_hourly :=
    if travel_time_mins > 0 then (dist_km * vehicle_cost_per_km) * (60 / (travel_time_mins + 1))
    else 0
  { location := p.1
    distance_km := dist_km
    travel_time_mins := travel_time_mins
    raw_eph := raw_eph
    effective_eph := raw_eph * time_efficiency_multiplier - travel_cost_hourly }

/-- The `options` list of step 2: candidates with
`travel_time_mins >= time_remaining_in_shift_mins` are skipped
(`continue`), the rest pass through `buildOption`. -/
def survivingOptions (eng : DecisionEngine) (inp : EngineInput) : List OptionInfo :=
  let cands := defaultCandidates inp
  let predicted_eph := eng.predictor.predict_eph (cands.map Prod.fst)
  (cands.filter
      (fun p => decide (p.2.travel_time_mins < inp.time_remaining_in_shift_mins))).map
    (buildOption predicted_eph inp.fuel_type)

/-- `self.avg_fare_by_city.get(city_id, 15.0)`. -/
def avgFare (eng : DecisionEngine) (city_id : ℤ) : ℚ :=
  (eng.avg_fare_by_city.lookup city_id).getD 15

/-- Step 3 of `get_recommendation` for one option: start from
`effective_eph`, apply the fatigue penalty when
`fatigue_level > FATIGUE_HIGH_THRESHOLD`, then the quest bonus when the
quest conditions hold, and record the result as `final_score`. -/
def scoreOption (fatigue_level : ℚ) (active_quest : Option ActiveQuest)
    (avg_fare : ℚ) (o : OptionInfo) : ScoredOption :=
  let score := o.effective_eph
  let score :=
    if fatigue_level > FATIGUE_HIGH_THRESHOLD then
      score - (o.travel_time_mins * (1/10)) * (fatigue_level - FATIGUE_HIGH_THRESHOLD)
    else score
  let score :=
    match active_quest with
    | none => score
    | some quest =>
      let trips_needed := quest.target - quest.progress
      if trips_needed > 0 ∧ quest.deadline_hours > 0 then
        let required_rate := trips_needed / quest.deadline_hours
        let estimated_trip_rate := if avg_fare > 0 then o.raw_eph / avg_fare else 0
        if estimated_trip_rate ≥ required_rate then
          score + quest.reward / quest.target
        else score
      else score
  { location := o.location
    distance_km := o.distance_km
    travel_time_mins := o.travel_time_mins
    raw_eph := o.raw_eph
    effective_eph := o.effective_eph
    final_score := score }

/-- The `options` list after step 3 has attached every `final_score`. -/
def scoredOptions (eng : DecisionEngine) (inp : EngineInput) : List ScoredOption :=
  (survivingOptions eng inp).map
    (scoreOption (compute_fatigue inp.hours_online inp.jobs_completed)
      inp.active_quest (avgFare eng inp.city_id))

/-- `sorted(options, key=lambda x: x["final_score"], reverse=True)`:
a stable sort, descending by `final_score`. -/
def rankedOptions (eng : DecisionEngine) (inp : EngineInput) : List ScoredOption :=
  (scoredOptions eng inp).mergeSort (fun a b => decide (b.final_score ≤ a.final_score))

/-- The possible outcomes of `get_recommendation`, one per `return`
statement, abstracting the narrative strings. -/
inductive RecAction where
  /-- "CRITICAL: Take a break. Your fatigue level is too high…" -/
  | breakCriticalFatigue
  /-- "Take a break. You've been driving for … hours straight." -/
  | breakTooLong
  /-- "Stay put. No viable alternative locations found within your shift time." -/
  | stayNoViable
  /-- "Stay at {current}. It's currently your best option." -/
  | stayAlreadyBest
  /-- "Move to {best} (~… min drive). Potential for $…/hr more." -/
  | move (loc : String)
  /-- "Stay at {current}. Moving to {best} is not a significant improvement…" -/
  | stayNotSignificant (loc : String)
deriving DecidableEq

/-- The `(recommendation, details)` pair: the outcome, the
`details["ranked_options"]` list (empty when that key is never set), and
the fatigue level. -/
structure RecResult where
  action : RecAction
  ranked_options : List ScoredOption
  fatigue_level : ℚ
deriving DecidableEq

/-- Step 4 of `get_recommendation` ("FINAL RECOMMENDATION LOGIC"), applied
to the ranked list: `best_option = ranked_options[0]`, `current_option` is
the first ranked option at the driver's current location (falling back to
`best_option`), then stay/move by the `improvement_ratio >= 1.25` test,
where `improvement_ratio = float('inf')` when
`current_option["final_score"] <= 0` (and `inf >= 1.25` holds). The `[]`
case is unreachable: this step runs only after the `not options` check. -/
def finalPolicy (current_location : String) (fatigue_level : ℚ) :
    List ScoredOption → RecResult
  | [] => { action := .stayNoViable, ranked_options := [], fatigue_level := fatigue_level }
  | best_option :: rest =>
    let ranked := best_option :: rest
    let current_option :=
      (ranked.find? (fun o => o.location == current_location)).getD best_option
    if best_option.location = current_location then
      { action := .stayAlreadyBest, ranked_options := ranked, fatigue_level := fatigue_level }
    else if current_option.final_score > 0 then
      if best_option.final_score / current_option.final_score ≥ MOVE_ADVANTANTAGE_THRESHOLD then
        { action := .move best_option.location, ranked_options := ranked,
          fatigue_level := fatigue_level }
      else
        { action := .stayNotSignificant best_option.location, ranked_options := ranked,
          fatigue_level := fatigue_level }
    else
      { action := .move best_option.location, ranked_options := ranked,
        fatigue_level := fatigue_level }

/-- `DecisionEngine.get_recommendation` of `src/next_locdemo.py`:
safety overrides, candidate defaulting and filtering, scoring, stable
descending ranking, and the final stay/move policy. -/
def get_recommendation (eng : DecisionEngine) (inp : EngineInput) : RecResult :=
  let fatigue_level := compute_fatigue inp.hours_online inp.jobs_completed
  if fatigue_level ≥ FATIGUE_CRITICAL_THRESHOLD then
    { action := .breakCriticalFatigue, ranked_options := [], fatigue_level := fatigue_level }
  else if inp.hours_online > MAX_HOURS_CONTINUOUS then
    { action := .breakTooLong, ranked_options := [], fatigue_level := fatigue_level }
  else if (survivingOptions eng inp).isEmpty then
    { action := .stayNoViable, ranked_options := [], fatigue_level := fatigue_level }
  else
    finalPolicy inp.current_location fatigue_level (rankedOptions eng inp)

/-! ### Helper lemmas -/

theorem lookup_map_pair (f : String → ℚ) (locs : List String) (loc : String)
    (hmem : loc ∈ locs) :
    (locs.map (fun l => (l, f l))).lookup loc = some (f loc) := by
  induction locs with
  | nil => cases hmem
  | cons a t ih =>
    by_cases hax : loc = a
    · subst hax; simp [List.lookup]
    · rcases List.mem_cons.1 hmem with rfl | hmem
      · exact absurd rfl hax
      · have hb : (loc == a) = false := by simp [hax]
        simpa [List.lookup, hb] using ih hmem

theorem min_one_nonneg {x : ℚ} (hx : 0 ≤ x) : 0 ≤ min 1 x :=
  le_min (by norm_num) hx

theorem compute_fatigue_le_one (h j : ℚ) : compute_fatigue h j ≤ 1 := by
  simp only [compute_fatigue]
  exact min_le_left _ _

theorem compute_fatigue_nonneg (h j : ℚ) (hh : 0 ≤ h) (hj : 0 ≤ j) :
    0 ≤ compute_fatigue h j := by
  have h1 : (0:ℚ) ≤ min 1 (h / MAX_HOURS_CONTINUOUS) :=
    min_one_nonneg (by unfold MAX_HOURS_CONTINUOUS; positivity)
  have h2 : (0:ℚ) ≤ min 1 (j / 50) := min_one_nonneg (by positivity)
  simp only [compute_fatigue]
  refine le_min (by norm_num) (by nlinarith)

theorem compute_fatigue_zero_hours_le (j : ℚ) : compute_fatigue 0 j ≤ 3/10 := by
  have h2 : min 1 (j / 50) ≤ 1 := min_le_left _ _
  simp only [compute_fatigue, MAX_HOURS_CONTINUOUS]
  have h0 : min (1:ℚ) (0 / 5) = 0 := by norm_num
  rw [h0]
  refine le_trans (min_le_right _ _) (by nlinarith)

/-! ### Claim theorems -/

/-- C6: for every `hours_online ≥ 0` and `jobs_completed ≥ 0`, fatigue
equals `min(1, 0.7*min(1, hours_online/5) + 0.3*min(1, jobs_completed/50))`,
lies in `[0, 1]`, and equals exactly `1` at `hours_online = 5`,
`jobs_completed = 50`. -/
theorem fatigue_formula_and_bounds (hours_online jobs_completed : ℚ)
    (hh : 0 ≤ hours_online) (hj : 0 ≤ jobs_completed) :
    compute_fatigue hours_online jobs_completed
        = min 1 ((7/10) * min 1 (hours_online / 5) + (3/10) * min 1 (jobs_completed / 50))
      ∧ 0 ≤ compute_fatigue hours_online jobs_completed
      ∧ compute_fatigue hours_online jobs_completed ≤ 1
      ∧ compute_fatigue 5 50 = 1 := by
  refine ⟨?_, compute_fatigue_nonneg _ _ hh hj, compute_fatigue_le_one _ _, ?_⟩
  · simp only [compute_fatigue, MAX_HOURS_CONTINUOUS]
    ring_nf
  · norm_num [compute_fatigue, MAX_HOURS_CONTINUOUS]

theorem fatigue_formula_and_bounds_witness :
    compute_fatigue 2 10 = min 1 ((7/10) * min 1 (2/5) + (3/10) * min 1 (10/50))
      ∧ 0 ≤ compute_fatigue 2 10 ∧ compute_fatigue 2 10 ≤ 1
      ∧ compute_fatigue 5 50 = 1 :=
  fatigue_formula_and_bounds 2 10 (by norm_num) (by norm_num)

/-- C8: the fatigue function is monotonic non-decreasing in each argument. -/
theorem fatigue_monotone :
    (∀ h1 h2 j : ℚ, h1 ≤ h2 → compute_fatigue h1 j ≤ compute_fatigue h2 j)
      ∧ (∀ j1 j2 h : ℚ, j1 ≤ j2 → compute_fatigue h j1 ≤ compute_fatigue h j2) := by
  constructor
  · intro h1 h2 j hle
    simp only [compute_fatigue, MAX_HOURS_CONTINUOUS]
    have hmin : min 1 (h1 / 5) ≤ min 1 (h2 / 5) :=
      min_le_min le_rfl (by linarith)
    exact min_le_min le_rfl (by nlinarith)
  · intro j1 j2 h hle
    simp only [compute_fatigue, MAX_HOURS_CONTINUOUS]
    have hmin : min 1 (j1 / 50) ≤ min 1 (j2 / 50) :=
      min_le_min le_rfl (by linarith)
    exact min_le_min le_rfl (by nlinarith)

theorem fatigue_monotone_witness :
    compute_fatigue 1 10 ≤ compute_fatigue 2 10
      ∧ compute_fatigue 1 10 ≤ compute_fatigue 1 20 :=
  ⟨fatigue_monotone.1 1 2 10 (by norm_num), fatigue_monotone.2 10 20 1 (by norm_num)⟩

/-- C9: `predict_eph` returns a mapping whose key list is exactly the
requested locations, where an id stored in the table maps to its stored
EPH and an absent id maps to the default `10.0`; the function is total,
never failing on any id. -/
theorem predict_eph_defaults (p : DemandPredictor) (locations : List String)
    (loc : String) (hmem : loc ∈ locations) :
    (p.predict_eph locations).map Prod.fst = locations
      ∧ (p.predict_eph locations).lookup loc
          = some ((p.eph_predictions.lookup loc).getD 10)
      ∧ (∀ v, p.eph_predictions.lookup loc = some v →
          (p.predict_eph locations).lookup loc = some v)
      ∧ (p.eph_predictions.lookup loc = none →
          (p.predict_eph locations).lookup loc = some 10) := by
  have hl : (p.predict_eph locations).lookup loc
      = some ((p.eph_predictions.lookup loc).getD 10) := by
    simpa [DemandPredictor.predict_eph] using
      lookup_map_pair (fun l => (p.eph_predictions.lookup l).getD 10) locations loc hmem
  refine ⟨?_, hl, ?_, ?_⟩
  · simp [DemandPredictor.predict_eph, List.map_map, Function.comp_def]
  · intro v hv
    rw [hl, hv]
    rfl
  · intro hv
    rw [hl, hv]
    rfl

theorem predict_eph_defaults_witness :
    (DemandPredictor.predict_eph ⟨[("A", 12)]⟩ ["A", "B"]).map Prod.fst = ["A", "B"]
      ∧ (DemandPredictor.predict_eph ⟨[("A", 12)]⟩ ["A", "B"]).lookup "A"
          = some (((([("A", (12:ℚ))]).lookup "A").getD 10))
      ∧ (DemandPredictor.predict_eph ⟨[("A", 12)]⟩ ["A", "B"]).lookup "B"
          = some (((([("A", (12:ℚ))]).lookup "B").getD 10)) :=
  ⟨(predict_eph_defaults ⟨[("A", 12)]⟩ ["A", "B"] "A" (by simp)).1,
   (predict_eph_defaults ⟨[("A", 12)]⟩ ["A", "B"] "A" (by simp)).2.1,
   (predict_eph_defaults ⟨[("A", 12)]⟩ ["A", "B"] "B" (by simp)).2.1⟩

/-! ### Branch lemmas for `get_recommendation` -/

theorem get_recommendation_critical (eng : DecisionEngine) (inp : EngineInput)
    (h : compute_fatigue inp.hours_online inp.jobs_completed ≥ FATIGUE_CRITICAL_THRESHOLD) :
    get_recommendation eng inp =
      { action := .breakCriticalFatigue, ranked_options := [],
        fatigue_level := compute_fatigue inp.hours_online inp.jobs_completed } := by
  simp [get_recommendation, h]

theorem get_recommendation_tooLong (eng : DecisionEngine) (inp : EngineInput)
    (h1 : ¬ compute_fatigue inp.hours_online inp.jobs_completed ≥ FATIGUE_CRITICAL_THRESHOLD)
    (h2 : inp.hours_online > MAX_HOURS_CONTINUOUS) :
    get_recommendation eng inp =
      { action := .breakTooLong, ranked_options := [],
        fatigue_level := compute_fatigue inp.hours_online inp.jobs_completed } := by
  simp [get_recommendation, h1, h2]

theorem get_recommendation_noViable (eng : DecisionEngine) (inp : EngineInput)
    (h1 : ¬ compute_fatigue inp.hours_online inp.jobs_completed ≥ FATIGUE_CRITICAL_THRESHOLD)
    (h2 : ¬ inp.hours_online > MAX_HOURS_CONTINUOUS)
    (h3 : survivingOptions eng inp = []) :
    get_recommendation eng inp =
      { action := .stayNoViable, ranked_options := [],
        fatigue_level := compute_fatigue inp.hours_online inp.jobs_completed } := by
  simp [get_recommendation, h1, h2, h3]

theorem get_recommendation_normal (eng : DecisionEngine) (inp : EngineInput)
    (h1 : ¬ compute_fatigue inp.hours_online inp.jobs_completed ≥ FATIGUE_CRITICAL_THRESHOLD)
    (h2 : ¬ inp.hours_online > MAX_HOURS_CONTINUOUS)
    (h3 : survivingOptions eng inp ≠ []) :
    get_recommendation eng inp =
      finalPolicy inp.current_location
        (compute_fatigue inp.hours_online inp.jobs_completed) (rankedOptions eng inp) := by
  have h3' : (survivingOptions eng inp).isEmpty = false := by
    cases hs : survivingOptions eng inp with
    | nil => exact absurd hs h3
    | cons a t => rfl
  simp [get_recommendation, h1, h2, h3']

theorem finalPolicy_cons_ranked (current_location : String) (fatigue_level : ℚ)
    (b : ScoredOption) (rest : List ScoredOption) :
    (finalPolicy current_location fatigue_level (b :: rest)).ranked_options = b :: rest := by
  simp only [finalPolicy]
  split_ifs <;> rfl

theorem finalPolicy_ranked_options (current_location : String) (fatigue_level : ℚ)
    (l : List ScoredOption) :
    (finalPolicy current_location fatigue_level l).ranked_options = []
      ∨ (finalPolicy current_location fatigue_level l).ranked_options = l := by
  cases l with
  | nil => left; rfl
  | cons b rest => right; exact finalPolicy_cons_ranked _ _ b rest

theorem ranked_options_of_get (eng : DecisionEngine) (inp : EngineInput) :
    (get_recommendation eng inp).ranked_options = []
      ∨ (get_recommendation eng inp).ranked_options = rankedOptions eng inp := by
  simp only [get_recommendation]
  split_ifs
  · left; rfl
  · left; rfl
  · left; rfl
  · exact finalPolicy_ranked_options _ _ _

theorem mem_scoredOptions_travel_time (eng : DecisionEngine) (inp : EngineInput)
    (s : ScoredOption) (hmem : s ∈ scoredOptions eng inp) :
    s.travel_time_mins < inp.time_remaining_in_shift_mins := by
  simp only [scoredOptions, List.mem_map] at hmem
  obtain ⟨o, ho, rfl⟩ := hmem
  simp only [survivingOptions, List.mem_map, List.mem_filter] at ho
  obtain ⟨p, ⟨_, hp⟩, rfl⟩ := ho
  have hlt : p.2.travel_time_mins < inp.time_remaining_in_shift_mins := of_decide_eq_true hp
  simpa [scoreOption, buildOption] using hlt

/-! ### Sample data for witness theorems -/

/-- An engine with an empty EPH table and an empty fare table: every lookup
takes the documented default. -/
def engW : DecisionEngine := ⟨⟨[]⟩, []⟩

/-- 6 hours online with 50 jobs: fatigue saturates at 1. -/
def inpCritical : EngineInput :=
  ⟨"A", 1, "gas", 6, 50, 60, [("B", ⟨2, 10⟩)], none⟩

/-- 5.5 hours online with no jobs: fatigue 0.7, but over the 5-hour limit. -/
def inpTooLong : EngineInput :=
  ⟨"A", 1, "gas", 11/2, 0, 60, [("B", ⟨2, 10⟩)], none⟩

/-- A fresh driver at "A" whose only candidate is "B", 2 km / 10 min away. -/
def inpB : EngineInput :=
  ⟨"A", 1, "gas", 1, 0, 60, [("B", ⟨2, 10⟩)], none⟩

/-- A fresh driver with no candidate locations supplied. -/
def inpEmpty : EngineInput :=
  ⟨"A", 1, "gas", 1, 0, 60, [], none⟩

/-- A driver with zero hours online and very many completed jobs. -/
def inpZeroHours : EngineInput :=
  ⟨"A", 1, "gas", 0, 1000, 60, [("B", ⟨2, 10⟩)], none⟩

/-- The scored option the engine derives for candidate "B" of `inpB`:
raw EPH 10 (empty table), effective EPH
`10 * 60/70 - (2 * 0.35) * 60/11 = 366/77`. -/
def optB : ScoredOption := ⟨"B", 2, 10, 10, 366/77, 366/77⟩

/-- C1: the forced-break overrides run first and in order — critical
fatigue (≥ 0.8) forces a break regardless of the candidates, otherwise
more than 5 hours online forces a break; in both cases no option list is
produced (no candidate scoring occurs). -/
theorem safety_overrides_first (eng : DecisionEngine) (inp : EngineInput) :
    (compute_fatigue inp.hours_online inp.jobs_completed ≥ FATIGUE_CRITICAL_THRESHOLD →
      get_recommendation eng inp =
        { action := .breakCriticalFatigue, ranked_options := [],
          fatigue_level := compute_fatigue inp.hours_online inp.jobs_completed })
    ∧ (compute_fatigue inp.hours_online inp.jobs_completed < FATIGUE_CRITICAL_THRESHOLD →
       inp.hours_online > MAX_HOURS_CONTINUOUS →
      get_recommendation eng inp =
        { action := .breakTooLong, ranked_options := [],
          fatigue_level := compute_fatigue inp.hours_online inp.jobs_completed }) :=
  ⟨get_recommendation_critical eng inp,
   fun hlt hh => get_recommendation_tooLong eng inp (not_le.2 hlt) hh⟩

theorem safety_overrides_first_witness :
    get_recommendation engW inpCritical =
      { action := .breakCriticalFatigue, ranked_options := [],
        fatigue_level := compute_fatigue inpCritical.hours_online inpCritical.jobs_completed }
    ∧ get_recommendation engW inpTooLong =
      { action := .breakTooLong, ranked_options := [],
        fatigue_level := compute_fatigue inpTooLong.hours_online inpTooLong.jobs_completed } :=
  ⟨(safety_overrides_first engW inpCritical).1
    (by norm_num [inpCritical, compute_fatigue, MAX_HOURS_CONTINUOUS,
      FATIGUE_CRITICAL_THRESHOLD, min_def]),
   (safety_overrides_first engW inpTooLong).2
    (by norm_num [inpTooLong, compute_fatigue, MAX_HOURS_CONTINUOUS,
      FATIGUE_CRITICAL_THRESHOLD, min_def])
    (by norm_num [inpTooLong, MAX_HOURS_CONTINUOUS])⟩

/-- C10 (implicit): with zero hours online fatigue is at most `0.3` no
matter how many jobs are completed, so the critical-fatigue forced break
(threshold `0.8`) can never fire at `hours_online = 0`; indeed fatigue
`≥ 0.8` forces `hours_online ≥ 25/7`. -/
theorem zero_hours_never_critical :
    (∀ j : ℚ, 0 ≤ j → compute_fatigue 0 j ≤ 3/10)
    ∧ (∀ h j : ℚ, compute_fatigue h j ≥ 4/5 → h ≥ 25/7)
    ∧ (∀ (eng : DecisionEngine) (inp : EngineInput), inp.hours_online = 0 →
        (get_recommendation eng inp).action ≠ .breakCriticalFatigue) := by
  refine ⟨fun j _ => compute_fatigue_zero_hours_le j, ?_, ?_⟩
  · intro h j hf
    simp only [compute_fatigue, MAX_HOURS_CONTINUOUS] at hf
    have hb : min 1 (j / 50) ≤ 1 := min_le_left _ _
    have ha : min 1 (h / 5) ≤ h / 5 := min_le_right _ _
    have hx : (4:ℚ)/5 ≤ min 1 (h / 5) * (7/10) + min 1 (j / 50) * (3/10) :=
      le_trans hf (min_le_right _ _)
    linarith
  · intro eng inp h0
    have hle : compute_fatigue inp.hours_online inp.jobs_completed ≤ 3/10 := by
      rw [h0]; exact compute_fatigue_zero_hours_le inp.jobs_completed
    have hne : ¬ compute_fatigue inp.hours_online inp.jobs_completed
        ≥ FATIGUE_CRITICAL_THRESHOLD := by
      simp only [FATIGUE_CRITICAL_THRESHOLD]
      intro hc
      linarith
    simp only [get_recommendation]
    split_ifs
    · simp
    · simp
    · rcases hr : rankedOptions eng inp with _ | ⟨b, rest⟩
      · simp [finalPolicy]
      · simp only [finalPolicy]
        split_ifs <;> simp

theorem zero_hours_never_critical_witness :
    compute_fatigue 0 10 ≤ 3/10
    ∧ (5:ℚ) ≥ 25/7
    ∧ (get_recommendation engW inpZeroHours).action ≠ .breakCriticalFatigue :=
  ⟨zero_hours_never_critical.1 10 (by norm_num),
   zero_hours_never_critical.2.1 5 50
    (by norm_num [compute_fatigue, MAX_HOURS_CONTINUOUS, min_def]),
   zero_hours_never_critical.2.2 engW inpZeroHours rfl⟩

/-- The pre-scoring option the engine derives for candidate "B" of `inpB`. -/
def optBInfo : OptionInfo := ⟨"B", 2, 10, 10, 366/77⟩

/-- C5: travel economics for every surviving candidate — fuel cost from
the documented table (with the `0.30` default for an unrecognised fuel
type), a time-efficiency multiplier of `60/(60+t)`, an hourly travel cost
of `(d*cost)*(60/(t+1))` for `t > 0` and `0` otherwise, and
`effective_eph = raw_eph * multiplier - travel cost`. -/
theorem travel_economics (eng : DecisionEngine) (inp : EngineInput)
    (o : OptionInfo) (hmem : o ∈ survivingOptions eng inp) :
    o.effective_eph
        = o.raw_eph * (60 / (60 + o.travel_time_mins))
          - (if o.travel_time_mins > 0 then
              (o.distance_km * FUEL_TYPE_COSTS_PER_KM inp.fuel_type)
                * (60 / (o.travel_time_mins + 1))
            else 0)
      ∧ FUEL_TYPE_COSTS_PER_KM "gas" = 35/100
      ∧ FUEL_TYPE_COSTS_PER_KM "hybrid" = 25/100
      ∧ FUEL_TYPE_COSTS_PER_KM "EV" = 15/100
      ∧ FUEL_TYPE_COSTS_PER_KM "unknown" = 30/100
      ∧ (∀ f : String, f ≠ "gas" → f ≠ "hybrid" → f ≠ "EV" → f ≠ "unknown" →
          FUEL_TYPE_COSTS_PER_KM f = 30/100) := by
  refine ⟨?_, rfl, rfl, rfl, rfl, ?_⟩
  · simp only [survivingOptions, List.mem_map] at hmem
    obtain ⟨p, _, rfl⟩ := hmem
    simp [buildOption]
  · intro f h1 h2 h3 h4
    simp [FUEL_TYPE_COSTS_PER_KM, h1, h2, h3, h4]

theorem travel_economics_witness :
    optBInfo.effective_eph
        = optBInfo.raw_eph * (60 / (60 + optBInfo.travel_time_mins))
          - (if optBInfo.travel_time_mins > 0 then
              (optBInfo.distance_km * FUEL_TYPE_COSTS_PER_KM inpB.fuel_type)
                * (60 / (optBInfo.travel_time_mins + 1))
            else 0)
      ∧ FUEL_TYPE_COSTS_PER_KM "gas" = 35/100
      ∧ FUEL_TYPE_COSTS_PER_KM "hybrid" = 25/100
      ∧ FUEL_TYPE_COSTS_PER_KM "EV" = 15/100
      ∧ FUEL_TYPE_COSTS_PER_KM "unknown" = 30/100 := by
  have hsurv : survivingOptions engW inpB = [optBInfo] := by
    norm_num [survivingOptions, defaultCandidates, inpB, engW, DemandPredictor.predict_eph,
      buildOption, optBInfo, FUEL_TYPE_COSTS_PER_KM, List.lookup]
  have h := travel_economics engW inpB optBInfo
    (by rw [hsurv]; exact List.mem_singleton.2 rfl)
  exact ⟨h.1, h.2.1, h.2.2.1, h.2.2.2.1, h.2.2.2.2.1⟩

/-- C7: a candidate whose travel time meets or exceeds the remaining shift
time never appears in the ranked output of any recommendation call —
every ranked option's travel time is strictly below the remaining time. -/
theorem unreachable_never_ranked (eng : DecisionEngine) (inp : EngineInput)
    (s : ScoredOption)
    (hmem : s ∈ (get_recommendation eng inp).ranked_options) :
    s.travel_time_mins < inp.time_remaining_in_shift_mins := by
  rcases ranked_options_of_get eng inp with h | h
  · rw [h] at hmem; cases hmem
  · rw [h, rankedOptions] at hmem
    exact mem_scoredOptions_travel_time eng inp s (List.mem_mergeSort.1 hmem)

theorem unreachable_never_ranked_witness :
    optB.travel_time_mins < inpB.time_remaining_in_shift_mins := by
  apply unreachable_never_ranked engW inpB optB
  have hsurv : survivingOptions engW inpB = [optBInfo] := by
    norm_num [survivingOptions, defaultCandidates, inpB, engW, DemandPredictor.predict_eph,
      buildOption, optBInfo, FUEL_TYPE_COSTS_PER_KM, List.lookup]
  have hsc : scoredOptions engW inpB = [optB] := by
    rw [scoredOptions, hsurv]
    norm_num [scoreOption, optBInfo, optB, compute_fatigue, inpB, avgFare, engW,
      MAX_HOURS_CONTINUOUS, FATIGUE_HIGH_THRESHOLD, min_def]
  have h1 : ¬ compute_fatigue inpB.hours_online inpB.jobs_completed
      ≥ FATIGUE_CRITICAL_THRESHOLD := by
    norm_num [inpB, compute_fatigue, MAX_HOURS_CONTINUOUS, FATIGUE_CRITICAL_THRESHOLD, min_def]
  have h2 : ¬ inpB.hours_online > MAX_HOURS_CONTINUOUS := by
    norm_num [inpB, MAX_HOURS_CONTINUOUS]
  have h3 : survivingOptions engW inpB ≠ [] := by rw [hsurv]; simp
  rw [get_recommendation_normal engW inpB h1 h2 h3, rankedOptions, hsc,
    List.mergeSort_singleton, finalPolicy_cons_ranked]
  exact List.mem_singleton.2 rfl

/-- C4: the final score of every surviving candidate is exactly
`effective_eph`, minus the fatigue penalty
`travel_time_mins * 0.1 * (fatigue - 0.6)` when `fatigue > 0.6`, plus
exactly `reward / target` when an active quest needs
`target - progress > 0` more trips before a positive deadline and the
option's estimated trip rate `raw_eph / avg_fare` reaches
`trips_needed / deadline_hours`; no other term enters. -/
theorem final_score_decomposition (eng : DecisionEngine) (inp : EngineInput)
    (s : ScoredOption) (hmem : s ∈ scoredOptions eng inp)
    (hfare : 0 < avgFare eng inp.city_id) :
    s.final_score
      = s.effective_eph
        - (if compute_fatigue inp.hours_online inp.jobs_completed > FATIGUE_HIGH_THRESHOLD then
            (s.travel_time_mins * (1/10))
              * (compute_fatigue inp.hours_online inp.jobs_completed - FATIGUE_HIGH_THRESHOLD)
          else 0)
        + (match inp.active_quest with
           | none => 0
           | some quest =>
             if 0 < quest.target - quest.progress ∧ 0 < quest.deadline_hours
                ∧ (quest.target - quest.progress) / quest.deadline_hours
                    ≤ s.raw_eph / avgFare eng inp.city_id then
               quest.reward / quest.target
             else 0) := by
  simp only [scoredOptions, List.mem_map] at hmem
  obtain ⟨o, _, rfl⟩ := hmem
  cases hq : inp.active_quest with
  | none =>
    simp only [scoreOption, hq]
    split_ifs <;> ring
  | some quest =>
    simp only [scoreOption, hq, gt_iff_lt, ge_iff_le, hfare, if_true]
    simp only [← and_assoc, ite_and]
    split_ifs <;> ring

theorem final_score_decomposition_witness :
    optB.final_score
      = optB.effective_eph
        - (if compute_fatigue inpB.hours_online inpB.jobs_completed > FATIGUE_HIGH_THRESHOLD then
            (optB.travel_time_mins * (1/10))
              * (compute_fatigue inpB.hours_online inpB.jobs_completed - FATIGUE_HIGH_THRESHOLD)
          else 0)
        + 0 := by
  have hsurv : survivingOptions engW inpB = [optBInfo] := by
    norm_num [survivingOptions, defaultCandidates, inpB, engW, DemandPredictor.predict_eph,
      buildOption, optBInfo, FUEL_TYPE_COSTS_PER_KM, List.lookup]
  have hsc : scoredOptions engW inpB = [optB] := by
    rw [scoredOptions, hsurv]
    norm_num [scoreOption, optBInfo, optB, compute_fatigue, inpB, avgFare, engW,
      MAX_HOURS_CONTINUOUS, FATIGUE_HIGH_THRESHOLD, min_def]
  exact final_score_decomposition engW inpB optB
    (by rw [hsc]; exact List.mem_singleton.2 rfl)
    (by norm_num [avgFare, engW])

/-- C2: past the break overrides with a nonempty ranked list: if the
best-ranked option sits at the current location the engine stays
("already optimal"); otherwise it moves to the best location exactly when
`improvement_ratio = best.final_score / current.final_score` — taken as
`+infinity` when `current.final_score ≤ 0`, so that the threshold test
passes — is at least `1.25`, and otherwise stays ("not a significant
improvement"). `current` is the first ranked option at the driver's
location, falling back to `best`. -/
theorem move_threshold_policy (eng : DecisionEngine) (inp : EngineInput)
    (hcrit : compute_fatigue inp.hours_online inp.jobs_completed < FATIGUE_CRITICAL_THRESHOLD)
    (hlong : ¬ inp.hours_online > MAX_HOURS_CONTINUOUS)
    (best : ScoredOption) (rest : List ScoredOption)
    (hranked : rankedOptions eng inp = best :: rest)
    (current : ScoredOption)
    (hcur : current
      = (((best :: rest).find? (fun o => o.location == inp.current_location)).getD best)) :
    (best.location = inp.current_location →
      (get_recommendation eng inp).action = .stayAlreadyBest)
    ∧ (best.location ≠ inp.current_location →
        (((get_recommendation eng inp).action = .move best.location)
          ↔ (current.final_score ≤ 0
             ∨ MOVE_ADVANTANTAGE_THRESHOLD ≤ best.final_score / current.final_score))
        ∧ (((get_recommendation eng inp).action = .stayNotSignificant best.location)
          ↔ (0 < current.final_score
             ∧ best.final_score / current.final_score < MOVE_ADVANTANTAGE_THRESHOLD))) := by
  have hsne : survivingOptions eng inp ≠ [] := by
    intro h
    rw [rankedOptions, scoredOptions, h] at hranked
    simp at hranked
  rw [get_recommendation_normal eng inp (not_le.2 hcrit) hlong hsne, hranked]
  simp only [finalPolicy]
  rw [← hcur]
  constructor
  · intro heq
    rw [if_pos heq]
  · intro hne
    rw [if_neg hne]
    by_cases hpos : current.final_score > 0
    · rw [if_pos hpos]
      by_cases hthr : best.final_score / current.final_score ≥ MOVE_ADVANTANTAGE_THRESHOLD
      · rw [if_pos hthr]
        exact ⟨iff_of_true rfl (Or.inr hthr),
          iff_of_false (by simp) (fun h => absurd hthr (not_le.2 h.2))⟩
      · rw [if_neg hthr]
        exact ⟨iff_of_false (by simp)
            (fun h => h.elim (fun h0 => absurd hpos (not_lt.2 h0)) hthr),
          iff_of_true rfl ⟨hpos, not_le.1 hthr⟩⟩
    · rw [if_neg hpos]
      exact ⟨iff_of_true rfl (Or.inl (not_lt.1 hpos)),
        iff_of_false (by simp) (fun h => absurd h.1 hpos)⟩

theorem move_threshold_policy_witness :
    (((get_recommendation engW inpB).action = .move optB.location)
      ↔ (optB.final_score ≤ 0
         ∨ MOVE_ADVANTANTAGE_THRESHOLD ≤ optB.final_score / optB.final_score))
    ∧ (((get_recommendation engW inpB).action = .stayNotSignificant optB.location)
      ↔ (0 < optB.final_score
         ∧ optB.final_score / optB.final_score < MOVE_ADVANTANTAGE_THRESHOLD)) := by
  have hsurv : survivingOptions engW inpB = [optBInfo] := by
    norm_num [survivingOptions, defaultCandidates, inpB, engW, DemandPredictor.predict_eph,
      buildOption, optBInfo, FUEL_TYPE_COSTS_PER_KM, List.lookup]
  have hsc : scoredOptions engW inpB = [optB] := by
    rw [scoredOptions, hsurv]
    norm_num [scoreOption, optBInfo, optB, compute_fatigue, inpB, avgFare, engW,
      MAX_HOURS_CONTINUOUS, FATIGUE_HIGH_THRESHOLD, min_def]
  exact (move_threshold_policy engW inpB
    (by norm_num [inpB, compute_fatigue, MAX_HOURS_CONTINUOUS,
      FATIGUE_CRITICAL_THRESHOLD, min_def])
    (by norm_num [inpB, MAX_HOURS_CONTINUOUS])
    optB []
    (by rw [rankedOptions, hsc, List.mergeSort_singleton])
    optB rfl).2 (by decide)

/-- The pre-scoring and scored option the engine derives for the
substituted current-location candidate of `inpEmpty`: distance 0,
travel time 0, raw and effective EPH 10 (empty table), final score 10. -/
def optAInfo : OptionInfo := ⟨"A", 0, 0, 10, 10⟩

/-- The scored form of `optAInfo`. -/
def optA : ScoredOption := ⟨"A", 0, 0, 10, 10, 10⟩

/-- C3 counterexample: with no candidates supplied, no override firing and
an hour of shift left, the engine does not report "no viable alternative";
it substitutes the current location as a candidate and reports "stay,
already optimal". -/
theorem empty_candidates_counterexample :
    inpEmpty.candidate_locations = []
    ∧ compute_fatigue inpEmpty.hours_online inpEmpty.jobs_completed < FATIGUE_CRITICAL_THRESHOLD
    ∧ ¬ inpEmpty.hours_online > MAX_HOURS_CONTINUOUS
    ∧ (get_recommendation engW inpEmpty).action = .stayAlreadyBest
    ∧ (get_recommendation engW inpEmpty).action ≠ .stayNoViable := by
  have hsurv : survivingOptions engW inpEmpty = [optAInfo] := by
    norm_num [survivingOptions, defaultCandidates, inpEmpty, engW,
      DemandPredictor.predict_eph, buildOption, optAInfo, FUEL_TYPE_COSTS_PER_KM, List.lookup]
  have hsc : scoredOptions engW inpEmpty = [optA] := by
    rw [scoredOptions, hsurv]
    norm_num [scoreOption, optAInfo, optA, compute_fatigue, inpEmpty, avgFare, engW,
      MAX_HOURS_CONTINUOUS, FATIGUE_HIGH_THRESHOLD, min_def]
  have h1 : compute_fatigue inpEmpty.hours_online inpEmpty.jobs_completed
      < FATIGUE_CRITICAL_THRESHOLD := by
    norm_num [inpEmpty, compute_fatigue, MAX_HOURS_CONTINUOUS,
      FATIGUE_CRITICAL_THRESHOLD, min_def]
  have h2 : ¬ inpEmpty.hours_online > MAX_HOURS_CONTINUOUS := by
    norm_num [inpEmpty, MAX_HOURS_CONTINUOUS]
  have hact : (get_recommendation engW inpEmpty).action = .stayAlreadyBest := by
    rw [get_recommendation_normal engW inpEmpty (not_le.2 h1) h2 (by rw [hsurv]; simp),
      rankedOptions, hsc, List.mergeSort_singleton]
    simp [finalPolicy, optA, inpEmpty]
  exact ⟨rfl, h1, h2, hact, by rw [hact]; simp⟩

/-- C3 amended: when the caller supplies no candidate locations and no
break override fires, the engine substitutes the current location
(distance 0, travel time 0) as the sole candidate; it reports the
"no viable alternative" stay outcome exactly when the remaining shift
time is not positive, and otherwise reports the "stay — already optimal"
outcome. Either way the computation is total — no exception path exists
in the embedding. -/
theorem empty_candidates_behaviour (eng : DecisionEngine) (inp : EngineInput)
    (hcrit : compute_fatigue inp.hours_online inp.jobs_completed < FATIGUE_CRITICAL_THRESHOLD)
    (hlong : ¬ inp.hours_online > MAX_HOURS_CONTINUOUS)
    (hempty : inp.candidate_locations = []) :
    defaultCandidates inp = [(inp.current_location, ⟨0, 0⟩)]
    ∧ (inp.time_remaining_in_shift_mins ≤ 0 →
        (get_recommendation eng inp).action = .stayNoViable)
    ∧ (0 < inp.time_remaining_in_shift_mins →
        (get_recommendation eng inp).action = .stayAlreadyBest) := by
  have hdef : defaultCandidates inp = [(inp.current_location, ⟨0, 0⟩)] := by
    simp [defaultCandidates, hempty]
  refine ⟨hdef, ?_, ?_⟩
  · intro ht
    have hsurv : survivingOptions eng inp = [] := by
      rw [survivingOptions, hdef]
      simp [not_lt.2 ht]
    rw [get_recommendation_noViable eng inp (not_le.2 hcrit) hlong hsurv]
  · intro ht
    have hsurv : survivingOptions eng inp
        = [buildOption (eng.predictor.predict_eph [inp.current_location]) inp.fuel_type
            (inp.current_location, ⟨0, 0⟩)] := by
      rw [survivingOptions, hdef]
      simp [ht]
    rw [get_recommendation_normal eng inp (not_le.2 hcrit) hlong (by rw [hsurv]; simp),
      rankedOptions, scoredOptions, hsurv, List.map_singleton, List.mergeSort_singleton]
    simp [finalPolicy, scoreOption, buildOption]

theorem empty_candidates_behaviour_witness :
    defaultCandidates inpEmpty = [(inpEmpty.current_location, ⟨0, 0⟩)]
    ∧ (get_recommendation engW inpEmpty).action = .stayAlreadyBest := by
  have h1 : compute_fatigue inpEmpty.hours_online inpEmpty.jobs_completed
      < FATIGUE_CRITICAL_THRESHOLD := by
    norm_num [inpEmpty, compute_fatigue, MAX_HOURS_CONTINUOUS,
      FATIGUE_CRITICAL_THRESHOLD, min_def]
  have h2 : ¬ inpEmpty.hours_online > MAX_HOURS_CONTINUOUS := by
    norm_num [inpEmpty, MAX_HOURS_CONTINUOUS]
  exact ⟨(empty_candidates_behaviour engW inpEmpty h1 h2 rfl).1,
    (empty_candidates_behaviour engW inpEmpty h1 h2 rfl).2.2 (by norm_num [inpEmpty])⟩

end NextLoc
